/-
  Verification of the dcl-math Vector3 core (src/src/Vector2.ts).

  The TypeScript source computes with IEEE-754 doubles; this development embeds
  the arithmetic over the real numbers, the standard exact idealization, and
  keeps the source structure: every "to-ref" method is embedded as a function
  from the values of its operands (this, the other operands, the prior value of
  the result object) to the value the result object holds after the call, since
  the source evaluates all operand reads before any field of the result is
  assigned.  Methods whose bodies assign every field of the result take the
  prior result value as an argument that the body never reads, mirroring the
  source.  The claim about strict IEEE equality (NaN, signed zero) is treated
  over an explicit number model with those values, see JSNum below.

  Definitions marked "Modelled from the spec" embed code of this repository
  that is not under src (Scalar.ts, types.ts, Matrix.ts, Quaternion.ts): only
  what the spec states about them is used.
-/
import Mathlib

noncomputable section

namespace DclMath

/-- Modelled from the spec: the default epsilon of types.ts is not under src;
the spec calls it a small library-wide constant used as the default for
epsilon-tolerant equality. -/
def Epsilon : ℝ := 1 / 1000000

namespace Scalar

/-- Modelled from the spec: Scalar.ts is not under src; the spec defines
epsilon-tolerant equality as treating two values as equal when their
difference is below the small threshold. -/
def WithinEpsilon (a b epsilon : ℝ) : Prop := |a - b| ≤ epsilon

end Scalar

/-- The Vector3 class of src/src/Vector2.ts: three floating-point fields,
embedded as real numbers. -/
@[ext] structure Vector3 where
  x : ℝ
  y : ℝ
  z : ℝ

/-- The 4x4 matrix operand of the transform functions.  Matrix.ts is not under
src; the source reads transformation.m as a flat array of sixteen floats and
the spec fixes the layout: column-major, indices 0 to 15, translation in
12 to 14, homogeneous row at 3, 7, 11, 15.  Embedded as sixteen named real
fields m0 .. m15 standing for m[0] .. m[15]. -/
structure Matrix where
  m0 : ℝ
  m1 : ℝ
  m2 : ℝ
  m3 : ℝ
  m4 : ℝ
  m5 : ℝ
  m6 : ℝ
  m7 : ℝ
  m8 : ℝ
  m9 : ℝ
  m10 : ℝ
  m11 : ℝ
  m12 : ℝ
  m13 : ℝ
  m14 : ℝ
  m15 : ℝ

/-- Modelled from the spec: Matrix.Identity is not under src; the identity
matrix in the layout of the spec has ones at the diagonal cells 0, 5, 10, 15
and zeroes elsewhere. -/
def Matrix.Identity : Matrix := ⟨1, 0, 0, 0, 0, 1, 0, 0, 0, 0, 1, 0, 0, 0, 0, 1⟩

/-- The quaternion produced by the delegated axis-to-quaternion construction
(Quaternion.ts is not under src): four real fields per the spec. -/
structure Quaternion where
  x : ℝ
  y : ℝ
  z : ℝ
  w : ℝ

namespace Vector3

/-- Vector3.Zero(): new Vector3(0.0, 0.0, 0.0). -/
def Zero : Vector3 := ⟨0, 0, 0⟩

/-- copyFromFloats: assigns all three fields of this from the given floats and
returns this.  The value returned is the post-call value of the this object;
its prior value v is never read by the body. -/
def copyFromFloats (v : Vector3) (x y z : ℝ) : Vector3 := ⟨x, y, z⟩

/-- copyFrom: copyFromFloats with the fields of source. -/
def copyFrom (v source : Vector3) : Vector3 :=
  copyFromFloats v source.x source.y source.z

/-- add: new Vector3 of the componentwise sums. -/
def add (v otherVector : Vector3) : Vector3 :=
  ⟨v.x + otherVector.x, v.y + otherVector.y, v.z + otherVector.z⟩

/-- addToRef: result.copyFromFloats(this.x + other.x, this.y + other.y,
this.z + other.z).  All operand reads happen before the write, so the
function of the read values gives the post-call value of result even when
result aliases this or the other operand. -/
def addToRef (v otherVector result : Vector3) : Vector3 :=
  copyFromFloats result (v.x + otherVector.x) (v.y + otherVector.y)
    (v.z + otherVector.z)

/-- subtract: new Vector3 of the componentwise differences. -/
def subtract (v otherVector : Vector3) : Vector3 :=
  ⟨v.x - otherVector.x, v.y - otherVector.y, v.z - otherVector.z⟩

/-- scale: new Vector3 of the components multiplied by the scalar. -/
def scale (v : Vector3) (s : ℝ) : Vector3 := ⟨v.x * s, v.y * s, v.z * s⟩

/-- scaleInPlace: this.x *= scale etc.; the returned value is the post-call
value of this. -/
def scaleInPlace (v : Vector3) (s : ℝ) : Vector3 := ⟨v.x * s, v.y * s, v.z * s⟩

/-- scaleToRef: result.copyFromFloats(this.x * scale, ...). -/
def scaleToRef (v : Vector3) (s : ℝ) (result : Vector3) : Vector3 :=
  copyFromFloats result (v.x * s) (v.y * s) (v.z * s)

/-- length: Math.sqrt(x*x + y*y + z*z). -/
def length (v : Vector3) : ℝ := Real.sqrt (v.x * v.x + v.y * v.y + v.z * v.z)

/-- normalizeFromLength: no-op when len is 0 or 1, else scaleInPlace(1/len). -/
def normalizeFromLength (v : Vector3) (len : ℝ) : Vector3 :=
  if len = 0 ∨ len = 1 then v else scaleInPlace v (1 / len)

/-- normalize: normalizeFromLength(this.length()). -/
def normalize (v : Vector3) : Vector3 := normalizeFromLength v (length v)

/-- normalizeToRef: when this.length() is 0 or 1, copies the fields of this
into reference; else scaleToRef(1/len, reference).  Returns the post-call
value of the reference object. -/
def normalizeToRef (v reference : Vector3) : Vector3 :=
  if length v = 0 ∨ length v = 1 then copyFromFloats reference v.x v.y v.z
  else scaleToRef v (1 / length v) reference

/-- Vector3.Dot(left, right). -/
def Dot (left right : Vector3) : ℝ :=
  left.x * right.x + left.y * right.y + left.z * right.z

/-- Vector3.CrossToRef(left, right, result): all three components are computed
from operand reads, then written via copyFromFloats. -/
def CrossToRef (left right result : Vector3) : Vector3 :=
  copyFromFloats result (left.y * right.z - left.z * right.y)
    (left.z * right.x - left.x * right.z)
    (left.x * right.y - left.y * right.x)

/-- Vector3.GetClipFactor(vector0, vector1, axis, size):
d0 = Dot(vector0, axis) - size, d1 = Dot(vector1, axis) - size, s = d0/(d0-d1)
with no guard on the divisor. -/
def GetClipFactor (vector0 vector1 axis : Vector3) (size : ℝ) : ℝ :=
  let d0 := Dot vector0 axis - size
  let d1 := Dot vector1 axis - size
  d0 / (d0 - d1)

/-- Vector3.GetAngleBetweenVectors(vector0, vector1, normal): normalizes both
inputs into scratch slots (tmp1, tmp2 embed the arbitrary prior contents of
MathTmp.Vector3[1] and [2]), takes the dot, the cross into a third slot, and
returns acos(dot) with the sign decided by Dot(n, normal) > 0.  The local
consts v0, v1, dot, n of the source body are inlined. -/
def GetAngleBetweenVectors (vector0 vector1 normal tmp1 tmp2 tmp3 : Vector3) :
    ℝ :=
  if 0 < Dot (CrossToRef (normalizeToRef vector0 tmp1)
      (normalizeToRef vector1 tmp2) tmp3) normal then
    Real.arccos (Dot (normalizeToRef vector0 tmp1) (normalizeToRef vector1 tmp2))
  else
    -Real.arccos (Dot (normalizeToRef vector0 tmp1) (normalizeToRef vector1 tmp2))

/-- equals on real-valued vectors is the strict componentwise comparison (the
IEEE edge cases are treated separately over JSNum below). -/
def equals (v otherVector : Vector3) : Prop :=
  v.x = otherVector.x ∧ v.y = otherVector.y ∧ v.z = otherVector.z

/-- equalsWithEpsilon: Scalar.WithinEpsilon on each component. -/
def equalsWithEpsilon (v otherVector : Vector3) (epsilon : ℝ) : Prop :=
  Scalar.WithinEpsilon v.x otherVector.x epsilon ∧
  Scalar.WithinEpsilon v.y otherVector.y epsilon ∧
  Scalar.WithinEpsilon v.z otherVector.z epsilon

/-
  Transform functions, embedded in state-passing form: each takes the matrix
  operand and the prior value of the result object and returns the pair of the
  post-call result value and the post-call matrix value.  The source bodies
  read m = transformation.m and assign only result.x, result.y, result.z, so
  the matrix component of the returned pair is the operand itself.
-/

/-- TransformCoordinatesFromFloatsToRef: rx, ry, rz from the linear part plus
the translation column, rw = 1/(homogeneous row dot), result gets rx*rw etc. -/
def TransformCoordinatesFromFloatsToRefST (x y z : ℝ) (transformation : Matrix)
    (result : Vector3) : Vector3 × Matrix :=
  let m := transformation
  let rx := x * m.m0 + y * m.m4 + z * m.m8 + m.m12
  let ry := x * m.m1 + y * m.m5 + z * m.m9 + m.m13
  let rz := x * m.m2 + y * m.m6 + z * m.m10 + m.m14
  let rw := 1 / (x * m.m3 + y * m.m7 + z * m.m11 + m.m15)
  (⟨rx * rw, ry * rw, rz * rw⟩, transformation)

/-- TransformCoordinatesToRef delegates to the FromFloats form on the read
components of the vector. -/
def TransformCoordinatesToRefST (vector : Vector3) (transformation : Matrix)
    (result : Vector3) : Vector3 × Matrix :=
  TransformCoordinatesFromFloatsToRefST vector.x vector.y vector.z
    transformation result

/-- TransformCoordinates allocates result = Vector3.Zero() and runs the to-ref
form. -/
def TransformCoordinatesST (vector : Vector3) (transformation : Matrix) :
    Vector3 × Matrix :=
  TransformCoordinatesToRefST vector transformation Zero

/-- The value TransformCoordinates returns. -/
def TransformCoordinates (vector : Vector3) (transformation : Matrix) :
    Vector3 :=
  (TransformCoordinatesST vector transformation).1

/-- TransformNormalFromFloatsToRef: only the 3x3 linear part, no translation,
no perspective divide. -/
def TransformNormalFromFloatsToRefST (x y z : ℝ) (transformation : Matrix)
    (result : Vector3) : Vector3 × Matrix :=
  let m := transformation
  (⟨x * m.m0 + y * m.m4 + z * m.m8, x * m.m1 + y * m.m5 + z * m.m9,
    x * m.m2 + y * m.m6 + z * m.m10⟩, transformation)

/-- TransformNormalToRef delegates to the FromFloats form. -/
def TransformNormalToRefST (vector : Vector3) (transformation : Matrix)
    (result : Vector3) : Vector3 × Matrix :=
  TransformNormalFromFloatsToRefST vector.x vector.y vector.z transformation
    result

/-- TransformNormal allocates result = Vector3.Zero() and runs the to-ref
form. -/
def TransformNormalST (vector : Vector3) (transformation : Matrix) :
    Vector3 × Matrix :=
  TransformNormalToRefST vector transformation Zero

/-- The value TransformNormal returns. -/
def TransformNormal (vector : Vector3) (transformation : Matrix) : Vector3 :=
  (TransformNormalST vector transformation).1

/-- RotationFromAxisToRef in state-passing form: the quadruple returned holds
the post-call values of axis1, axis2, axis3 and ref.  The body borrows a
scratch quaternion, fills it by the delegated construction and copies its
Euler angles into ref.  Modelled from the spec: Quaternion.ts is not under
src; per the spec, Quaternion.RotationQuaternionFromAxisToRef reads the three
axes, normalizes intermediate values only, and writes only the out quaternion,
so it is embedded as an abstract function build of the axis values, and
eulerAngles as an abstract function of the quaternion value. -/
def RotationFromAxisToRefST (build : Vector3 → Vector3 → Vector3 → Quaternion)
    (eulerAngles : Quaternion → Vector3) (axis1 axis2 axis3 ref : Vector3) :
    Vector3 × Vector3 × Vector3 × Vector3 :=
  let quat := build axis1 axis2 axis3
  (axis1, axis2, axis3, copyFrom ref (eulerAngles quat))

end Vector3

/-- A JavaScript number as far as strict equality can see it: NaN, negative
zero, or an ordinary value (positive zero is num 0).  This model carries
exactly the IEEE-754 distinctions the source operator === observes. -/
inductive JSNum where
  | nan : JSNum
  | negZero : JSNum
  | num : ℚ → JSNum
deriving DecidableEq

/-- The JavaScript strict-equality operator === on numbers: NaN compares
unequal to every number, itself included; negative zero and positive zero
compare equal; ordinary values compare by value. -/
def strictEquals : JSNum → JSNum → Bool
  | JSNum.nan, _ => false
  | _, JSNum.nan => false
  | JSNum.negZero, JSNum.negZero => true
  | JSNum.negZero, JSNum.num q => decide (q = 0)
  | JSNum.num q, JSNum.negZero => decide (q = 0)
  | JSNum.num p, JSNum.num q => decide (p = q)

/-- The Vector3 class viewed with the IEEE-edge number model, for the claim
about the strict-equality method. -/
structure NVector3 where
  x : JSNum
  y : JSNum
  z : JSNum

namespace NVector3

/-- Vector3.equals: otherVector && this.x === otherVector.x && this.y ===
otherVector.y && this.z === otherVector.z, with otherVector a present
(non-null) vector, so only the three strict comparisons remain. -/
def equals (v otherVector : NVector3) : Bool :=
  strictEquals v.x otherVector.x && strictEquals v.y otherVector.y &&
    strictEquals v.z otherVector.z

/-- Some component of the vector is NaN. -/
def hasNaN (v : NVector3) : Prop :=
  v.x = JSNum.nan ∨ v.y = JSNum.nan ∨ v.z = JSNum.nan

end NVector3

/-
  Theorems for the claims.
-/

/-- C1: for every Vector3 a, the self-aliased call a.addToRef(a, a) writes
into a the same value a.scale(2) returns: the to-ref write is computed from
the already-read operand values before any field of the result is assigned. -/
theorem addToRef_self_aliased (a : Vector3) :
    Vector3.addToRef a a a = Vector3.scale a 2 := by
  unfold Vector3.addToRef Vector3.copyFromFloats Vector3.scale
  ext <;> ring

/-- C4: GetClipFactor returns d0/(d0-d1) with di = Dot(vi, axis) - size for
all inputs, with no guard on d0 = d1 (the formula holds for every input, the
degenerate divisor included), and the concrete scenario with points (0,0,0)
and (0,0,10), axis (0,0,1), size 5 yields 0.5. -/
theorem getClipFactor_correct :
    (∀ (vector0 vector1 axis : Vector3) (size : ℝ),
      Vector3.GetClipFactor vector0 vector1 axis size =
        (Vector3.Dot vector0 axis - size) /
          ((Vector3.Dot vector0 axis - size) -
            (Vector3.Dot vector1 axis - size))) ∧
    Vector3.GetClipFactor ⟨0, 0, 0⟩ ⟨0, 0, 10⟩ ⟨0, 0, 1⟩ 5 = 0.5 := by
  constructor
  · intro vector0 vector1 axis size
    rfl
  · unfold Vector3.GetClipFactor Vector3.Dot
    norm_num

/-- C6: for all vectors a, b, a.add(b).subtract(b).equalsWithEpsilon(a) holds
with the default epsilon. -/
theorem add_subtract_roundtrip (a b : Vector3) :
    Vector3.equalsWithEpsilon (Vector3.subtract (Vector3.add a b) b) a
      Epsilon := by
  unfold Vector3.equalsWithEpsilon Vector3.subtract Vector3.add
    Scalar.WithinEpsilon Epsilon
  refine ⟨?_, ?_, ?_⟩ <;> simp

/-- C8: every Vector3 transform call leaves all sixteen entries of its matrix
operand unchanged: the matrix component of the post-call state equals the
operand for all six transform functions. -/
theorem transforms_preserve_matrix (x y z : ℝ) (vector : Vector3)
    (transformation : Matrix) (result : Vector3) :
    (Vector3.TransformCoordinatesFromFloatsToRefST x y z transformation
      result).2 = transformation ∧
    (Vector3.TransformCoordinatesToRefST vector transformation result).2 =
      transformation ∧
    (Vector3.TransformCoordinatesST vector transformation).2 =
      transformation ∧
    (Vector3.TransformNormalFromFloatsToRefST x y z transformation
      result).2 = transformation ∧
    (Vector3.TransformNormalToRefST vector transformation result).2 =
      transformation ∧
    (Vector3.TransformNormalST vector transformation).2 = transformation :=
  ⟨rfl, rfl, rfl, rfl, rfl, rfl⟩

/-- C7: RotationFromAxisToRef leaves the three caller axis vectors unchanged,
for every delegated quaternion construction and Euler conversion: only the
ref output receives a write. -/
theorem rotationFromAxisToRef_preserves_axes
    (build : Vector3 → Vector3 → Vector3 → Quaternion)
    (eulerAngles : Quaternion → Vector3) (axis1 axis2 axis3 ref : Vector3) :
    (Vector3.RotationFromAxisToRefST build eulerAngles axis1 axis2 axis3
      ref).1 = axis1 ∧
    (Vector3.RotationFromAxisToRefST build eulerAngles axis1 axis2 axis3
      ref).2.1 = axis2 ∧
    (Vector3.RotationFromAxisToRefST build eulerAngles axis1 axis2 axis3
      ref).2.2.1 = axis3 :=
  ⟨rfl, rfl, rfl⟩

/-- C5: TransformCoordinates with the identity matrix reproduces every vector
exactly, and the homogeneous w denominator is exactly 1. -/
theorem transformCoordinates_identity (v : Vector3) :
    Vector3.TransformCoordinates v Matrix.Identity = v ∧
    v.x * Matrix.Identity.m3 + v.y * Matrix.Identity.m7 +
      v.z * Matrix.Identity.m11 + Matrix.Identity.m15 = 1 := by
  constructor
  · unfold Vector3.TransformCoordinates Vector3.TransformCoordinatesST
      Vector3.TransformCoordinatesToRefST
      Vector3.TransformCoordinatesFromFloatsToRefST Matrix.Identity
    ext <;> simp
  · unfold Matrix.Identity
    norm_num

/-- Helper: the length of concrete vectors reduces through the square root. -/
lemma length_000 : Vector3.length ⟨0, 0, 0⟩ = 0 := by
  unfold Vector3.length
  norm_num

lemma length_100 : Vector3.length ⟨1, 0, 0⟩ = 1 := by
  unfold Vector3.length
  norm_num

lemma length_010 : Vector3.length ⟨0, 1, 0⟩ = 1 := by
  unfold Vector3.length
  norm_num

lemma length_034 : Vector3.length ⟨0, 3, 4⟩ = 5 := by
  unfold Vector3.length
  norm_num
  rw [show (25 : ℝ) = 5 ^ 2 by norm_num]
  exact Real.sqrt_sq (by norm_num)

/-- Helper: scaling by a nonnegative factor scales the length. -/
lemma length_scaleInPlace (a : Vector3) (c : ℝ) (hc : 0 ≤ c) :
    Vector3.length (Vector3.scaleInPlace a c) = Vector3.length a * c := by
  unfold Vector3.length Vector3.scaleInPlace
  have h1 : a.x * c * (a.x * c) + a.y * c * (a.y * c) + a.z * c * (a.z * c) =
      (a.x * a.x + a.y * a.y + a.z * a.z) * (c * c) := by
    ring
  rw [h1,
    Real.sqrt_mul
      (add_nonneg (add_nonneg (mul_self_nonneg a.x) (mul_self_nonneg a.y))
        (mul_self_nonneg a.z)),
    Real.sqrt_mul_self hc]

/-- C2: normalize is a no-op on a zero-length vector and on a unit-length
vector, and on every vector of nonzero length it produces a vector whose
length is 1 within the default epsilon (exactly 1 in the real model). -/
theorem normalize_unit_or_noop (a : Vector3) :
    (Vector3.length a = 0 → Vector3.normalize a = a) ∧
    (Vector3.length a = 1 → Vector3.normalize a = a) ∧
    (Vector3.length a ≠ 0 →
      Scalar.WithinEpsilon (Vector3.length (Vector3.normalize a)) 1
        Epsilon) := by
  have hnoop : Vector3.length a = 0 ∨ Vector3.length a = 1 →
      Vector3.normalize a = a := by
    intro h
    unfold Vector3.normalize Vector3.normalizeFromLength
    rw [if_pos h]
  refine ⟨fun h => hnoop (Or.inl h), fun h => hnoop (Or.inr h), ?_⟩
  intro hne
  by_cases h1 : Vector3.length a = 1
  · rw [hnoop (Or.inr h1), h1]
    unfold Scalar.WithinEpsilon Epsilon
    norm_num
  · have hpos : 0 < Vector3.length a :=
      lt_of_le_of_ne (Real.sqrt_nonneg _) (Ne.symm hne)
    have hnorm : Vector3.normalize a =
        Vector3.scaleInPlace a (1 / Vector3.length a) := by
      unfold Vector3.normalize Vector3.normalizeFromLength
      rw [if_neg (by push_neg; exact ⟨hne, h1⟩)]
    have hlen1 : Vector3.length (Vector3.normalize a) = 1 := by
      rw [hnorm,
        length_scaleInPlace a (1 / Vector3.length a)
          (le_of_lt (one_div_pos.mpr hpos)),
        mul_one_div, div_self (ne_of_gt hpos)]
    rw [hlen1]
    unfold Scalar.WithinEpsilon Epsilon
    norm_num

/-- C2 witness: the hypotheses hold and the conclusions evaluate at the
concrete vectors (0,0,0), (1,0,0) and (0,3,4). -/
theorem normalize_unit_or_noop_witness :
    (Vector3.length ⟨0, 0, 0⟩ = 0 ∧
      Vector3.normalize ⟨0, 0, 0⟩ = (⟨0, 0, 0⟩ : Vector3)) ∧
    (Vector3.length ⟨1, 0, 0⟩ = 1 ∧
      Vector3.normalize ⟨1, 0, 0⟩ = (⟨1, 0, 0⟩ : Vector3)) ∧
    (Vector3.length ⟨0, 3, 4⟩ ≠ 0 ∧
      Scalar.WithinEpsilon (Vector3.length (Vector3.normalize ⟨0, 3, 4⟩)) 1
        Epsilon) := by
  have h5 : Vector3.length ⟨0, 3, 4⟩ ≠ 0 := by
    rw [length_034]
    norm_num
  exact ⟨⟨length_000, (normalize_unit_or_noop _).1 length_000⟩,
    ⟨length_100, (normalize_unit_or_noop _).2.1 length_100⟩,
    ⟨h5, (normalize_unit_or_noop _).2.2 h5⟩⟩

/-- C9: on the zero-length and unit-length fast path, normalizeToRef still
writes the components of the source vector into the reference: the post-call
reference value is exactly the component triple of the source, whatever the
prior contents of the reference were. -/
theorem normalizeToRef_fastpath_writes (v reference : Vector3)
    (h : Vector3.length v = 0 ∨ Vector3.length v = 1) :
    Vector3.normalizeToRef v reference = Vector3.mk v.x v.y v.z := by
  unfold Vector3.normalizeToRef
  rw [if_pos h]
  rfl

/-- C9 witness: both fast-path cases, with a reference holding stale values
(5,6,7) that are fully overwritten. -/
theorem normalizeToRef_fastpath_writes_witness :
    (Vector3.length ⟨0, 0, 0⟩ = 0 ∨ Vector3.length ⟨0, 0, 0⟩ = 1) ∧
    Vector3.normalizeToRef ⟨0, 0, 0⟩ ⟨5, 6, 7⟩ = (⟨0, 0, 0⟩ : Vector3) ∧
    (Vector3.length ⟨1, 0, 0⟩ = 0 ∨ Vector3.length ⟨1, 0, 0⟩ = 1) ∧
    Vector3.normalizeToRef ⟨1, 0, 0⟩ ⟨5, 6, 7⟩ = (⟨1, 0, 0⟩ : Vector3) :=
  ⟨Or.inl length_000,
    normalizeToRef_fastpath_writes _ _ (Or.inl length_000),
    Or.inr length_100,
    normalizeToRef_fastpath_writes _ _ (Or.inr length_100)⟩

/-- Helper: normalizeToRef on the unit vector (1,0,0) takes the unit-length
fast path and writes that vector into any reference. -/
lemma normalizeToRef_unitX (t : Vector3) :
    Vector3.normalizeToRef ⟨1, 0, 0⟩ t = (⟨1, 0, 0⟩ : Vector3) := by
  unfold Vector3.normalizeToRef
  rw [if_pos (Or.inr length_100)]
  rfl

/-- Helper: normalizeToRef on the unit vector (0,1,0). -/
lemma normalizeToRef_unitY (t : Vector3) :
    Vector3.normalizeToRef ⟨0, 1, 0⟩ t = (⟨0, 1, 0⟩ : Vector3) := by
  unfold Vector3.normalizeToRef
  rw [if_pos (Or.inr length_010)]
  rfl

/-- The sign rule of the claim for GetAngleBetweenVectors, as stated: the
returned angle is positive exactly when the cross product of the normalized
inputs has positive dot product with the supplied normal, and negative
otherwise. -/
def angleSignClaim (vector0 vector1 normal tmp1 tmp2 tmp3 : Vector3) : Prop :=
  (0 < Vector3.Dot (Vector3.CrossToRef (Vector3.normalizeToRef vector0 tmp1)
      (Vector3.normalizeToRef vector1 tmp2) tmp3) normal →
    0 < Vector3.GetAngleBetweenVectors vector0 vector1 normal tmp1 tmp2
      tmp3) ∧
  (¬ 0 < Vector3.Dot (Vector3.CrossToRef (Vector3.normalizeToRef vector0 tmp1)
      (Vector3.normalizeToRef vector1 tmp2) tmp3) normal →
    Vector3.GetAngleBetweenVectors vector0 vector1 normal tmp1 tmp2 tmp3 < 0)

/-- C3 counterexample: with vector0 = vector1 = (1,0,0) and normal (0,0,1)
the cross product is zero, so its dot with the normal is not positive, yet
the returned angle is -acos(1) = 0, not negative: the sign rule fails as
stated. -/
theorem angleSignClaim_counterexample :
    ¬ angleSignClaim ⟨1, 0, 0⟩ ⟨1, 0, 0⟩ ⟨0, 0, 1⟩ Vector3.Zero Vector3.Zero
      Vector3.Zero := by
  intro h
  have hnc : ¬ 0 < Vector3.Dot (Vector3.CrossToRef
      (Vector3.normalizeToRef ⟨1, 0, 0⟩ Vector3.Zero)
      (Vector3.normalizeToRef ⟨1, 0, 0⟩ Vector3.Zero) Vector3.Zero)
      ⟨0, 0, 1⟩ := by
    rw [normalizeToRef_unitX]
    unfold Vector3.CrossToRef Vector3.copyFromFloats Vector3.Dot
    norm_num
  have hval : Vector3.GetAngleBetweenVectors ⟨1, 0, 0⟩ ⟨1, 0, 0⟩ ⟨0, 0, 1⟩
      Vector3.Zero Vector3.Zero Vector3.Zero = 0 := by
    unfold Vector3.GetAngleBetweenVectors
    rw [if_neg hnc, normalizeToRef_unitX]
    have hdot : Vector3.Dot ⟨1, 0, 0⟩ ⟨1, 0, 0⟩ = 1 := by
      unfold Vector3.Dot
      norm_num
    rw [hdot, Real.arccos_one, neg_zero]
  have hlt := h.2 hnc
  rw [hval] at hlt
  exact lt_irrefl 0 hlt

/-- C3 amended: the concrete scenarios hold exactly, (1,0,0) against (0,1,0)
with normal (0,0,1) gives +pi/2 and the swapped inputs give -pi/2; in
general the returned angle is acos(dot) and nonnegative when the cross of
the normalized inputs has positive dot with the normal, and -acos(dot) and
nonpositive otherwise (zero, not negative, when the normalized inputs agree,
as the counterexample forces). -/
theorem getAngleBetweenVectors_amended :
    (∀ tmp1 tmp2 tmp3 : Vector3,
      Vector3.GetAngleBetweenVectors ⟨1, 0, 0⟩ ⟨0, 1, 0⟩ ⟨0, 0, 1⟩ tmp1 tmp2
        tmp3 = Real.pi / 2) ∧
    (∀ tmp1 tmp2 tmp3 : Vector3,
      Vector3.GetAngleBetweenVectors ⟨0, 1, 0⟩ ⟨1, 0, 0⟩ ⟨0, 0, 1⟩ tmp1 tmp2
        tmp3 = -(Real.pi / 2)) ∧
    (∀ vector0 vector1 normal tmp1 tmp2 tmp3 : Vector3,
      (0 < Vector3.Dot (Vector3.CrossToRef
          (Vector3.normalizeToRef vector0 tmp1)
          (Vector3.normalizeToRef vector1 tmp2) tmp3) normal →
        Vector3.GetAngleBetweenVectors vector0 vector1 normal tmp1 tmp2 tmp3 =
          Real.arccos (Vector3.Dot (Vector3.normalizeToRef vector0 tmp1)
            (Vector3.normalizeToRef vector1 tmp2)) ∧
        0 ≤ Vector3.GetAngleBetweenVectors vector0 vector1 normal tmp1 tmp2
          tmp3) ∧
      (¬ 0 < Vector3.Dot (Vector3.CrossToRef
          (Vector3.normalizeToRef vector0 tmp1)
          (Vector3.normalizeToRef vector1 tmp2) tmp3) normal →
        Vector3.GetAngleBetweenVectors vector0 vector1 normal tmp1 tmp2 tmp3 =
          -Real.arccos (Vector3.Dot (Vector3.normalizeToRef vector0 tmp1)
            (Vector3.normalizeToRef vector1 tmp2)) ∧
        Vector3.GetAngleBetweenVectors vector0 vector1 normal tmp1 tmp2
          tmp3 ≤ 0)) := by
  refine ⟨?_, ?_, ?_⟩
  · intro tmp1 tmp2 tmp3
    unfold Vector3.GetAngleBetweenVectors
    rw [normalizeToRef_unitX, normalizeToRef_unitY]
    have hc : 0 < Vector3.Dot
        (Vector3.CrossToRef ⟨1, 0, 0⟩ ⟨0, 1, 0⟩ tmp3) ⟨0, 0, 1⟩ := by
      unfold Vector3.CrossToRef Vector3.copyFromFloats Vector3.Dot
      norm_num
    rw [if_pos hc]
    have hdot : Vector3.Dot ⟨1, 0, 0⟩ ⟨0, 1, 0⟩ = 0 := by
      unfold Vector3.Dot
      norm_num
    rw [hdot, Real.arccos_zero]
  · intro tmp1 tmp2 tmp3
    unfold Vector3.GetAngleBetweenVectors
    rw [normalizeToRef_unitY, normalizeToRef_unitX]
    have hc : ¬ 0 < Vector3.Dot
        (Vector3.CrossToRef ⟨0, 1, 0⟩ ⟨1, 0, 0⟩ tmp3) ⟨0, 0, 1⟩ := by
      unfold Vector3.CrossToRef Vector3.copyFromFloats Vector3.Dot
      norm_num
    rw [if_neg hc]
    have hdot : Vector3.Dot ⟨0, 1, 0⟩ ⟨1, 0, 0⟩ = 0 := by
      unfold Vector3.Dot
      norm_num
    rw [hdot, Real.arccos_zero]
  · intro vector0 vector1 normal tmp1 tmp2 tmp3
    constructor
    · intro hpos
      have he : Vector3.GetAngleBetweenVectors vector0 vector1 normal tmp1
          tmp2 tmp3 = Real.arccos (Vector3.Dot
            (Vector3.normalizeToRef vector0 tmp1)
            (Vector3.normalizeToRef vector1 tmp2)) := by
        unfold Vector3.GetAngleBetweenVectors
        rw [if_pos hpos]
      exact ⟨he, by rw [he]; exact Real.arccos_nonneg _⟩
    · intro hneg
      have he : Vector3.GetAngleBetweenVectors vector0 vector1 normal tmp1
          tmp2 tmp3 = -Real.arccos (Vector3.Dot
            (Vector3.normalizeToRef vector0 tmp1)
            (Vector3.normalizeToRef vector1 tmp2)) := by
        unfold Vector3.GetAngleBetweenVectors
        rw [if_neg hneg]
      exact ⟨he, by rw [he]; exact neg_nonpos.mpr (Real.arccos_nonneg _)⟩

/-- C3 witness for the amended statement: both branches of the sign analysis
discharged at the concrete scenarios. -/
theorem getAngleBetweenVectors_amended_witness :
    (0 < Vector3.Dot (Vector3.CrossToRef
        (Vector3.normalizeToRef ⟨1, 0, 0⟩ Vector3.Zero)
        (Vector3.normalizeToRef ⟨0, 1, 0⟩ Vector3.Zero) Vector3.Zero)
        ⟨0, 0, 1⟩ ∧
      0 ≤ Vector3.GetAngleBetweenVectors ⟨1, 0, 0⟩ ⟨0, 1, 0⟩ ⟨0, 0, 1⟩
        Vector3.Zero Vector3.Zero Vector3.Zero) ∧
    (¬ 0 < Vector3.Dot (Vector3.CrossToRef
        (Vector3.normalizeToRef ⟨0, 1, 0⟩ Vector3.Zero)
        (Vector3.normalizeToRef ⟨1, 0, 0⟩ Vector3.Zero) Vector3.Zero)
        ⟨0, 0, 1⟩ ∧
      Vector3.GetAngleBetweenVectors ⟨0, 1, 0⟩ ⟨1, 0, 0⟩ ⟨0, 0, 1⟩
        Vector3.Zero Vector3.Zero Vector3.Zero ≤ 0) := by
  have hpos : 0 < Vector3.Dot (Vector3.CrossToRef
      (Vector3.normalizeToRef ⟨1, 0, 0⟩ Vector3.Zero)
      (Vector3.normalizeToRef ⟨0, 1, 0⟩ Vector3.Zero) Vector3.Zero)
      ⟨0, 0, 1⟩ := by
    rw [normalizeToRef_unitX, normalizeToRef_unitY]
    unfold Vector3.CrossToRef Vector3.copyFromFloats Vector3.Dot
    norm_num
  have hneg : ¬ 0 < Vector3.Dot (Vector3.CrossToRef
      (Vector3.normalizeToRef ⟨0, 1, 0⟩ Vector3.Zero)
      (Vector3.normalizeToRef ⟨1, 0, 0⟩ Vector3.Zero) Vector3.Zero)
      ⟨0, 0, 1⟩ := by
    rw [normalizeToRef_unitY, normalizeToRef_unitX]
    unfold Vector3.CrossToRef Vector3.copyFromFloats Vector3.Dot
    norm_num
  exact ⟨⟨hpos,
      ((getAngleBetweenVectors_amended.2.2 _ _ _ _ _ _).1 hpos).2⟩,
    ⟨hneg, ((getAngleBetweenVectors_amended.2.2 _ _ _ _ _ _).2 hneg).2⟩⟩

/-- Helper: strict equality is reflexive away from NaN. -/
lemma strictEquals_self (a : JSNum) (ha : a ≠ JSNum.nan) :
    strictEquals a a = true := by
  cases a with
  | nan => exact absurd rfl ha
  | negZero => rfl
  | num q => simp [strictEquals]

/-- C10: Vector3.equals uses strict IEEE comparison, so it is not reflexive
on a vector with a NaN component, it is reflexive on NaN-free vectors, and
negative zero components compare equal to positive zero components. -/
theorem equals_strict_ieee (v : NVector3) :
    (NVector3.hasNaN v → NVector3.equals v v = false) ∧
    (¬ NVector3.hasNaN v → NVector3.equals v v = true) ∧
    NVector3.equals ⟨JSNum.negZero, JSNum.num 0, JSNum.negZero⟩
      ⟨JSNum.num 0, JSNum.negZero, JSNum.num 0⟩ = true := by
  refine ⟨?_, ?_, by decide⟩
  · intro h
    rcases h with h | h | h <;> simp [NVector3.equals, h, strictEquals]
  · intro h
    unfold NVector3.hasNaN at h
    push_neg at h
    obtain ⟨hx, hy, hz⟩ := h
    unfold NVector3.equals
    rw [strictEquals_self _ hx, strictEquals_self _ hy,
      strictEquals_self _ hz]
    rfl

/-- C10 witness: a NaN vector is not equal to itself, a NaN-free vector is. -/
theorem equals_strict_ieee_witness :
    (NVector3.hasNaN ⟨JSNum.nan, JSNum.num 1, JSNum.num 2⟩ ∧
      NVector3.equals ⟨JSNum.nan, JSNum.num 1, JSNum.num 2⟩
        ⟨JSNum.nan, JSNum.num 1, JSNum.num 2⟩ = false) ∧
    (¬ NVector3.hasNaN ⟨JSNum.num 1, JSNum.num 2, JSNum.num 3⟩ ∧
      NVector3.equals ⟨JSNum.num 1, JSNum.num 2, JSNum.num 3⟩
        ⟨JSNum.num 1, JSNum.num 2, JSNum.num 3⟩ = true) := by
  have h1 : NVector3.hasNaN ⟨JSNum.nan, JSNum.num 1, JSNum.num 2⟩ :=
    Or.inl rfl
  have h2 : ¬ NVector3.hasNaN ⟨JSNum.num 1, JSNum.num 2, JSNum.num 3⟩ := by
    intro h
    rcases h with h | h | h <;> exact JSNum.noConfusion h
  exact ⟨⟨h1, (equals_strict_ieee _).1 h1⟩,
    ⟨h2, (equals_strict_ieee _).2.1 h2⟩⟩

end DclMath
